import Mathlib

/-!
Shallow embedding of the metadata registrar of the repository excerpt:
the `ngBaseDef` construction performed by the source functions
`initializeBaseDef` and `updateBaseDefFromIOProp`, the `Input` and
`Output` property decorators built on them, and the `Pipe` decorator's
metadata transform. Classes are identified by natural numbers; the
JavaScript prototype chain of each class and the set of `ngBaseDef`
properties directly owned by classes form the state.
-/

namespace Ng

/-- A JavaScript object used as a string-keyed map. A key can be present
with the value `undefined`, so stored values are `Option String` with
`none` standing for `undefined`; a key that is absent has no entry at
all. Entries are kept in insertion order, which is irrelevant to the
registrar. -/
abbrev PropMap := List (String × Option String)

/-- JavaScript property read of key `k`: `none` when the key is absent,
`some v` when the key is present with stored value `v`. -/
def pmGet : PropMap → String → Option (Option String)
  | [], _ => none
  | (k1, v) :: rest, k => if k1 = k then some v else pmGet rest k

/-- JavaScript property write of value `v` at key `k`: overwrites an
existing entry in place, otherwise appends a new entry. -/
def pmSet : PropMap → String → Option String → PropMap
  | [], k, v => [(k, v)]
  | (k1, v1) :: rest, k, v =>
    if k1 = k then (k, v) :: rest else (k1, v1) :: pmSet rest k v

/-- Modelled from the spec: `fillProperties` is imported from
`../util/property`, which is not part of this excerpt. Per the spec,
descriptor creation must copy every entry from the superclass's
`inputs`, `outputs`, and `declaredInputs` into the new descriptor's
corresponding mappings, as a value copy of each mapping. Each key of the
source object is visited once; an entry already present in the target is
kept. At the only call sites the target is freshly empty, so every
source entry is copied, as the spec requires. -/
def fillProperties : PropMap → PropMap → PropMap
  | target, [] => target
  | target, kv :: rest =>
    fillProperties
      (if (pmGet target kv.1).isSome then target else pmSet target kv.1 kv.2) rest

/-- The `ngBaseDef` descriptor: three string-keyed mappings, exactly the
object literal built by the source's `initializeBaseDef`. -/
structure BaseDef where
  inputs : PropMap
  outputs : PropMap
  declaredInputs : PropMap
deriving DecidableEq

/-- The registrar state. `chain c` is the prototype chain of class `c`,
nearest superclass first; `ownDef c` is the `ngBaseDef` property owned
directly by class `c`, with `none` modelling a failing
`hasOwnProperty(NG_BASE_DEF)` test. The chain never changes; only
`ownDef` is mutated. -/
structure World where
  chain : Nat → List Nat
  ownDef : Nat → Option BaseDef

/-- A property read through the prototype chain: the first class in the
list that directly owns the property supplies the value. -/
def lookupChain (f : Nat → Option BaseDef) : List Nat → Option BaseDef
  | [] => none
  | c :: rest =>
    match f c with
    | some d => some d
    | none => lookupChain f rest

/-- The JavaScript read `constructor.ngBaseDef` on class `c`: the
class's own slot first, then each superclass in prototype-chain order. -/
def ngBaseDefRead (w : World) (c : Nat) : Option BaseDef :=
  lookupChain w.ownDef (c :: w.chain c)

/-- The JavaScript write `constructor.ngBaseDef = d` on class `c`: the
property is created (or replaced) directly on `c`, never on a
superclass. -/
def setOwnDef (w : World) (c : Nat) (d : BaseDef) : World :=
  { w with ownDef := fun x => if x = c then some d else w.ownDef x }

/-- The descriptor built by the source's `initializeBaseDef`: the
possibly inherited `constructor.ngBaseDef` is read first (before the
fresh descriptor is installed, so the read sees the pre-existing state);
when an inherited descriptor is found, the three fresh empty mappings
are filled from its mappings with `fillProperties`. -/
def initialDescriptor (w : World) (c : Nat) : BaseDef :=
  match ngBaseDefRead w c with
  | none => { inputs := [], outputs := [], declaredInputs := [] }
  | some inh =>
    { inputs := fillProperties [] inh.inputs,
      outputs := fillProperties [] inh.outputs,
      declaredInputs := fillProperties [] inh.declaredInputs }

/-- The source's `initializeBaseDef` (shortened name): read the possibly
inherited `ngBaseDef`, build the fresh descriptor, and install it
directly on the class. -/
def initBaseDef (w : World) (c : Nat) : World :=
  setOwnDef w c (initialDescriptor w c)

/-- The spec's `ensureDescriptor` operation: the
`hasOwnProperty(NG_BASE_DEF)` guard plus the call to the source's
`initializeBaseDef`, exactly as inlined at the top of
`updateBaseDefFromIOProp`. The ownership test is a direct own-property
check with no prototype-chain walk. -/
def ensureDescriptor (w : World) (c : Nat) : World :=
  if (w.ownDef c).isSome then w else initBaseDef w c

/-- The descriptor directly owned by `c` right after `ensureDescriptor`:
the pre-existing one when the class already owned one, otherwise the
freshly built one. -/
def ensuredDescriptor (w : World) (c : Nat) : BaseDef :=
  match w.ownDef c with
  | some d => d
  | none => initialDescriptor w c

/-- The two category selectors passed to `updateBaseDefFromIOProp` by
the `Input` and `Output` decorators. -/
inductive IOProp where
  | inputs
  | outputs
deriving DecidableEq

/-- The selector `getProp` applied to a descriptor: `baseDef.inputs` or
`baseDef.outputs`. The source's truthiness fallback to a fresh empty
object is unreachable, because every descriptor the registrar creates
carries both mappings and a JavaScript object is always truthy. -/
def getIOProp (d : BaseDef) : IOProp → PropMap
  | .inputs => d.inputs
  | .outputs => d.outputs

/-- Replacing the selected mapping of a descriptor: models the in-place
JavaScript write into the mapping object selected by `getProp`. -/
def setIOProp (d : BaseDef) : IOProp → PropMap → BaseDef
  | .inputs, m => { d with inputs := m }
  | .outputs, m => { d with outputs := m }

/-- The source's `updateBaseDefFromIOProp` (the spec's `recordBinding`):
ensure the class directly owns a descriptor, re-read
`constructor.ngBaseDef` (after the guard this resolves to the class's
own descriptor, so the write lands there), and perform the write of
`args[0]` at key `name` in the selected mapping. `arg0` is `args[0]`,
the optional `bindingPropertyName` the decorator factory was called
with; `none` models `undefined`. -/
def updateBaseDefFromIOProp (ioProp : IOProp) (w : World) (c : Nat)
    (name : String) (arg0 : Option String) : World :=
  let w1 := ensureDescriptor w c
  match w1.ownDef c with
  | none => w1
  | some baseDef =>
    setOwnDef w1 c (setIOProp baseDef ioProp (pmSet (getIOProp baseDef ioProp) name arg0))

/-- The `Input` decorator's base-def processing:
`updateBaseDefFromIOProp` applied to the `inputs` selector. -/
def Input (bindingPropertyName : Option String) (w : World) (c : Nat)
    (name : String) : World :=
  updateBaseDefFromIOProp .inputs w c name bindingPropertyName

/-- The `Output` decorator's base-def processing:
`updateBaseDefFromIOProp` applied to the `outputs` selector. -/
def Output (bindingPropertyName : Option String) (w : World) (c : Nat)
    (name : String) : World :=
  updateBaseDefFromIOProp .outputs w c name bindingPropertyName

/-- The `inputs` entry stored for key `k` on the descriptor directly
owned by class `c`: the outer `none` means the class owns no descriptor,
the middle `none` means the key is absent from `inputs`, and the inner
`none` means the key is present with the value `undefined`. -/
def inputEntry (w : World) (c : Nat) (k : String) : Option (Option (Option String)) :=
  (w.ownDef c).map (fun d => pmGet d.inputs k)

/-- One application of the `Input` or `Output` decorator to a property. -/
structure Ann where
  ioProp : IOProp
  target : Nat
  name : String
  arg0 : Option String

/-- A sequence of decorator applications, applied left to right. -/
def applyAnns (w : World) : List Ann → World
  | [] => w
  | a :: rest => applyAnns (updateBaseDefFromIOProp a.ioProp w a.target a.name a.arg0) rest

/-- Every descriptor present in the state has an empty `declaredInputs`
mapping. -/
def allDeclaredInputsEmpty (w : World) : Prop :=
  ∀ c d, w.ownDef c = some d → d.declaredInputs = []

/-- The `Pipe` metadata shape: a required `name` and an optional `pure`
flag; `pure = none` models an object in which the `pure` property is not
supplied. -/
structure PipeMetadata where
  name : String
  pure : Option Bool
deriving DecidableEq

/-- The `Pipe` decorator's metadata transform from the source: an object
spread that starts from the default of `pure` being `true` and lets
every property supplied in `p` override it. -/
def Pipe (p : PipeMetadata) : PipeMetadata :=
  { name := p.name,
    pure :=
      match p.pure with
      | some b => some b
      | none => some true }

/-! ### Concrete class hierarchies used to evaluate the theorems on
concrete data. In each world, class `0` plays the superclass and class
`1` the subclass whose prototype chain is `[0]`. -/

def dC1 : BaseDef :=
  { inputs := [(("a"), some ("a"))], outputs := [], declaredInputs := [] }

def wC1 : World :=
  { chain := fun c => if c = 1 then [0] else [],
    ownDef := fun c => if c = 0 then some dC1 else none }

def wC2 : World := { chain := fun _ => [], ownDef := fun _ => none }

def dC3 : BaseDef :=
  { inputs := [(("x"), some ("x"))], outputs := [], declaredInputs := [] }

def wC3 : World :=
  { chain := fun c => if c = 1 then [0] else [],
    ownDef := fun c => if c = 0 then some dC3 else none }

def dC4 : BaseDef :=
  { inputs := [(("p"), some ("q"))], outputs := [], declaredInputs := [] }

def wC4 : World :=
  { chain := fun _ => [],
    ownDef := fun c => if c = 0 then some dC4 else none }

def dC5 : BaseDef :=
  { inputs := [(("a"), some ("aa"))],
    outputs := [(("b"), some ("bb"))],
    declaredInputs := [(("c"), some ("cc"))] }

def wC5 : World :=
  { chain := fun c => if c = 1 then [0] else [],
    ownDef := fun c => if c = 0 then some dC5 else none }

def dC6 : BaseDef :=
  { inputs := [(("a"), some ("a"))], outputs := [], declaredInputs := [] }

def wC6 : World :=
  { chain := fun c => if c = 1 then [0] else [],
    ownDef := fun c => if c = 0 then some dC6 else none }

def dC7 : BaseDef :=
  { inputs := [(("name"), some ("name"))], outputs := [], declaredInputs := [] }

def wC7 : World :=
  { chain := fun c => if c = 1 then [0] else [],
    ownDef := fun c => if c = 0 then some dC7 else none }

def wC9 : World :=
  { chain := fun c => if c = 1 then [0] else [], ownDef := fun _ => none }

def annsC9 : List Ann :=
  [{ ioProp := .inputs, target := 0, name := ("a"), arg0 := none },
   { ioProp := .inputs, target := 1, name := ("b"), arg0 := some ("bb") },
   { ioProp := .outputs, target := 1, name := ("c"), arg0 := some ("cc") }]

/-! ### Basic lemmas about the map operations -/

theorem pmGet_pmSet_self (m : PropMap) (k : String) (v : Option String) :
    pmGet (pmSet m k v) k = some v := by
  induction m with
  | nil => simp [pmSet, pmGet]
  | cons kv rest ih =>
    obtain ⟨k1, v1⟩ := kv
    by_cases h : k1 = k
    · simp [pmSet, pmGet, h]
    · simp [pmSet, pmGet, h, ih]

theorem pmGet_pmSet_ne (m : PropMap) (k k2 : String) (v : Option String)
    (h : k2 ≠ k) : pmGet (pmSet m k v) k2 = pmGet m k2 := by
  induction m with
  | nil => simp [pmSet, pmGet, Ne.symm h]
  | cons kv rest ih =>
    obtain ⟨k1, v1⟩ := kv
    by_cases h1 : k1 = k
    · subst h1
      simp [pmSet, pmGet, Ne.symm h]
    · by_cases h2 : k1 = k2 <;> simp [pmSet, pmGet, h, h1, h2, ih]

theorem pmGet_fillProperties_of_some (source : PropMap) (target : PropMap)
    (k : String) (v : Option String) (h : pmGet target k = some v) :
    pmGet (fillProperties target source) k = some v := by
  induction source generalizing target with
  | nil => simpa [fillProperties] using h
  | cons kv rest ih =>
    obtain ⟨k1, v1⟩ := kv
    by_cases h1 : (pmGet target k1).isSome
    · simpa [fillProperties, h1] using ih target h
    · have hne : k ≠ k1 := by
        intro hk
        rw [hk] at h
        simp [h] at h1
      have h2 : pmGet (pmSet target k1 v1) k = some v := by
        rw [pmGet_pmSet_ne target k1 k v1 hne, h]
      simpa [fillProperties, h1] using ih (pmSet target k1 v1) h2

theorem pmGet_fillProperties_of_none (source : PropMap) (target : PropMap)
    (k : String) (h : pmGet target k = none) :
    pmGet (fillProperties target source) k = pmGet source k := by
  induction source generalizing target with
  | nil => simpa [fillProperties] using h
  | cons kv rest ih =>
    obtain ⟨k1, v1⟩ := kv
    by_cases h1 : (pmGet target k1).isSome
    · have hne : k1 ≠ k := by
        intro hk
        rw [hk, h] at h1
        simp at h1
      simpa [fillProperties, h1, pmGet, hne] using ih target h
    · by_cases h2 : k1 = k
      · subst h2
        have h3 : pmGet (pmSet target k1 v1) k1 = some v1 :=
          pmGet_pmSet_self target k1 v1
        simpa [fillProperties, h1, pmGet] using
          pmGet_fillProperties_of_some rest (pmSet target k1 v1) k1 v1 h3
      · have h3 : pmGet (pmSet target k1 v1) k = none := by
          rw [pmGet_pmSet_ne target k1 k v1 (Ne.symm h2), h]
        simpa [fillProperties, h1, pmGet, h2] using ih (pmSet target k1 v1) h3

theorem pmGet_fillProperties_empty (source : PropMap) (k : String) :
    pmGet (fillProperties [] source) k = pmGet source k :=
  pmGet_fillProperties_of_none source [] k rfl

/-! ### Basic lemmas about the state operations -/

theorem setOwnDef_ownDef_self (w : World) (c : Nat) (d : BaseDef) :
    (setOwnDef w c d).ownDef c = some d := by
  simp [setOwnDef]

theorem setOwnDef_ownDef_other (w : World) (c : Nat) (d : BaseDef)
    (c2 : Nat) (h : c2 ≠ c) : (setOwnDef w c d).ownDef c2 = w.ownDef c2 := by
  simp [setOwnDef, h]

theorem ensureDescriptor_of_some (w : World) (c : Nat) (d : BaseDef)
    (h : w.ownDef c = some d) : ensureDescriptor w c = w := by
  simp [ensureDescriptor, h]

theorem ensureDescriptor_of_none (w : World) (c : Nat)
    (h : w.ownDef c = none) : ensureDescriptor w c = initBaseDef w c := by
  simp [ensureDescriptor, h]

theorem ensuredDescriptor_of_some (w : World) (c : Nat) (d : BaseDef)
    (h : w.ownDef c = some d) : ensuredDescriptor w c = d := by
  simp [ensuredDescriptor, h]

theorem ensuredDescriptor_of_none (w : World) (c : Nat)
    (h : w.ownDef c = none) : ensuredDescriptor w c = initialDescriptor w c := by
  simp [ensuredDescriptor, h]

theorem ensureDescriptor_ownDef (w : World) (c : Nat) :
    (ensureDescriptor w c).ownDef c = some (ensuredDescriptor w c) := by
  cases h : w.ownDef c with
  | some d => rw [ensureDescriptor_of_some w c d h, ensuredDescriptor_of_some w c d h, h]
  | none =>
    rw [ensureDescriptor_of_none w c h, ensuredDescriptor_of_none w c h]
    exact setOwnDef_ownDef_self w c (initialDescriptor w c)

theorem ensureDescriptor_ownDef_other (w : World) (c c2 : Nat) (h : c2 ≠ c) :
    (ensureDescriptor w c).ownDef c2 = w.ownDef c2 := by
  cases hc : w.ownDef c with
  | some d => rw [ensureDescriptor_of_some w c d hc]
  | none =>
    rw [ensureDescriptor_of_none w c hc]
    exact setOwnDef_ownDef_other w c (initialDescriptor w c) c2 h

theorem updateBaseDefFromIOProp_eq (ioProp : IOProp) (w : World) (c : Nat)
    (name : String) (arg0 : Option String) :
    updateBaseDefFromIOProp ioProp w c name arg0 =
      setOwnDef (ensureDescriptor w c) c
        (setIOProp (ensuredDescriptor w c) ioProp
          (pmSet (getIOProp (ensuredDescriptor w c) ioProp) name arg0)) := by
  show (match (ensureDescriptor w c).ownDef c with
        | none => ensureDescriptor w c
        | some baseDef =>
          setOwnDef (ensureDescriptor w c) c
            (setIOProp baseDef ioProp (pmSet (getIOProp baseDef ioProp) name arg0))) = _
  rw [ensureDescriptor_ownDef]

theorem updateBaseDefFromIOProp_ownDef_self (ioProp : IOProp) (w : World)
    (c : Nat) (name : String) (arg0 : Option String) :
    (updateBaseDefFromIOProp ioProp w c name arg0).ownDef c =
      some (setIOProp (ensuredDescriptor w c) ioProp
        (pmSet (getIOProp (ensuredDescriptor w c) ioProp) name arg0)) := by
  rw [updateBaseDefFromIOProp_eq]
  exact setOwnDef_ownDef_self _ c _

theorem updateBaseDefFromIOProp_ownDef_other (ioProp : IOProp) (w : World)
    (c : Nat) (name : String) (arg0 : Option String) (c2 : Nat) (h : c2 ≠ c) :
    (updateBaseDefFromIOProp ioProp w c name arg0).ownDef c2 = w.ownDef c2 := by
  rw [updateBaseDefFromIOProp_eq, setOwnDef_ownDef_other _ c _ c2 h]
  exact ensureDescriptor_ownDef_other w c c2 h

theorem setIOProp_declaredInputs (d : BaseDef) (p : IOProp) (m : PropMap) :
    (setIOProp d p m).declaredInputs = d.declaredInputs := by
  cases p <;> rfl

theorem setIOProp_inputs_of_outputs (d : BaseDef) (m : PropMap) :
    (setIOProp d .outputs m).inputs = d.inputs := rfl

theorem setIOProp_outputs_of_inputs (d : BaseDef) (m : PropMap) :
    (setIOProp d .inputs m).outputs = d.outputs := rfl

theorem lookupChain_eq_some (f : Nat → Option BaseDef) (l : List Nat)
    (d : BaseDef) (h : lookupChain f l = some d) :
    ∃ c, c ∈ l ∧ f c = some d := by
  induction l with
  | nil => simp [lookupChain] at h
  | cons c rest ih =>
    cases hc : f c with
    | some d2 =>
      simp only [lookupChain, hc] at h
      exact ⟨c, List.mem_cons_self c rest, hc.trans h⟩
    | none =>
      simp only [lookupChain, hc] at h
      obtain ⟨c2, hmem, hc2⟩ := ih h
      exact ⟨c2, List.mem_cons_of_mem c hmem, hc2⟩

/-! ### The claims -/

/-- C1: when subclass `D`'s descriptor is created while superclass `S`
already owns descriptor `dS` (the descriptor the prototype-chain read
for `D` resolves to), `D`'s initial descriptor contains every entry of
`dS.inputs`; and an entry later recorded on `S` under a key `kNew` that
was not in the snapshot lands in `S`'s descriptor but does not appear in
`D`'s descriptor — the copy is a value snapshot, not a shared
reference. -/
theorem C1_inheritance_snapshot (w : World) (D S : Nat) (dS : BaseDef)
    (hD : w.ownDef D = none)
    (hS : w.ownDef S = some dS)
    (hRead : ngBaseDefRead w D = some dS)
    (hSD : S ≠ D)
    (k kNew : String) (vNew vOld : Option String)
    (hkNew : pmGet dS.inputs kNew = none) :
    (pmGet dS.inputs k = some vOld →
      ∃ d, (ensureDescriptor w D).ownDef D = some d ∧ pmGet d.inputs k = some vOld) ∧
    (∃ dS2, (updateBaseDefFromIOProp .inputs (ensureDescriptor w D) S kNew vNew).ownDef S
        = some dS2 ∧ pmGet dS2.inputs kNew = some vNew) ∧
    (∃ d, (updateBaseDefFromIOProp .inputs (ensureDescriptor w D) S kNew vNew).ownDef D
        = some d ∧ pmGet d.inputs kNew = none) := by
  have hwD : (ensureDescriptor w D).ownDef D =
      some { inputs := fillProperties [] dS.inputs,
             outputs := fillProperties [] dS.outputs,
             declaredInputs := fillProperties [] dS.declaredInputs } := by
    rw [ensureDescriptor_ownDef, ensuredDescriptor_of_none w D hD]
    simp [initialDescriptor, hRead]
  refine ⟨?_, ?_, ?_⟩
  · intro hk
    refine ⟨_, hwD, ?_⟩
    rw [pmGet_fillProperties_empty]
    exact hk
  · have hS1 : (ensureDescriptor w D).ownDef S = some dS := by
      rw [ensureDescriptor_ownDef_other w D S hSD]
      exact hS
    refine ⟨_, updateBaseDefFromIOProp_ownDef_self .inputs (ensureDescriptor w D) S kNew vNew, ?_⟩
    rw [ensuredDescriptor_of_some (ensureDescriptor w D) S dS hS1]
    simpa [setIOProp, getIOProp] using pmGet_pmSet_self dS.inputs kNew vNew
  · refine ⟨{ inputs := fillProperties [] dS.inputs,
              outputs := fillProperties [] dS.outputs,
              declaredInputs := fillProperties [] dS.declaredInputs }, ?_, ?_⟩
    · rw [updateBaseDefFromIOProp_ownDef_other .inputs (ensureDescriptor w D) S kNew vNew D
        (Ne.symm hSD)]
      exact hwD
    · rw [pmGet_fillProperties_empty]
      exact hkNew

theorem C1_witness :
    (∃ d, (ensureDescriptor wC1 1).ownDef 1 = some d ∧
      pmGet d.inputs ("a") = some (some ("a"))) ∧
    (∃ dS2, (updateBaseDefFromIOProp .inputs (ensureDescriptor wC1 1) 0 ("b")
        (some ("b2"))).ownDef 0 = some dS2 ∧
      pmGet dS2.inputs ("b") = some (some ("b2"))) ∧
    (∃ d, (updateBaseDefFromIOProp .inputs (ensureDescriptor wC1 1) 0 ("b")
        (some ("b2"))).ownDef 1 = some d ∧
      pmGet d.inputs ("b") = none) := by
  obtain ⟨h1, h2, h3⟩ := C1_inheritance_snapshot wC1 1 0 dC1 (by decide) (by decide)
    (by decide) (by decide) ("a") ("b") (some ("b2")) (some ("a")) (by decide)
  exact ⟨h1 (by decide), h2, h3⟩

/-- C2 counterexample: applying the `Input` decorator with no
`bindingPropertyName` argument stores the raw `args[0]`, so the
descriptor's `inputs` entry for the property `foo` holds `undefined`,
not the string `foo` that the claim requires. -/
theorem C2_counterexample :
    inputEntry (Input none wC2 0 ("foo")) 0 ("foo") = some (some none) ∧
    inputEntry (Input none wC2 0 ("foo")) 0 ("foo") ≠ some (some (some ("foo"))) := by
  constructor
  · decide
  · decide

/-- C2 (amended): `recordBinding` stores the supplied alias argument
verbatim: after applying `Input` with binding property name `arg0`
(`none` models the omitted argument) the class's descriptor has an
`inputs` entry for the internal name whose stored value is exactly
`arg0` — in particular `undefined`, not the internal property name, when
the alias is omitted. -/
theorem C2_alias_stored_verbatim (w : World) (c : Nat) (name : String)
    (arg0 : Option String) :
    inputEntry (Input arg0 w c name) c name = some (some arg0) := by
  unfold Input inputEntry
  rw [updateBaseDefFromIOProp_ownDef_self]
  simp [setIOProp, getIOProp, pmGet_pmSet_self]

/-- C3: a subclass whose freshly created descriptor inherits exactly the
entry for internal name `x` from its superclass and then records its own
binding for `x` with a new external name ends with its `inputs` mapping
holding exactly `x` bound to the new name — the explicit binding
overwrites the inherited entry. -/
theorem C3_subclass_override (w : World) (D : Nat) (dS : BaseDef)
    (hD : w.ownDef D = none)
    (hRead : ngBaseDefRead w D = some dS)
    (x : String) (vOld vNew : Option String)
    (hx : dS.inputs = [(x, vOld)]) :
    ∃ d, (updateBaseDefFromIOProp .inputs w D x vNew).ownDef D = some d ∧
      d.inputs = [(x, vNew)] := by
  refine ⟨_, updateBaseDefFromIOProp_ownDef_self .inputs w D x vNew, ?_⟩
  rw [ensuredDescriptor_of_none w D hD]
  simp [initialDescriptor, hRead, hx, setIOProp, getIOProp, fillProperties, pmGet, pmSet]

theorem C3_witness :
    ∃ d, (updateBaseDefFromIOProp .inputs wC3 1 ("x") (some ("y"))).ownDef 1 = some d ∧
      d.inputs = [(("x"), some ("y"))] :=
  C3_subclass_override wC3 1 dC3 (by decide) (by decide) ("x") (some ("x"))
    (some ("y")) (by decide)

/-- C4: `ensureDescriptor` is idempotent — an immediately repeated call
leaves the whole state, and hence the class's descriptor, unchanged; and
once a class owns a descriptor, `ensureDescriptor` returns the state
untouched while a subsequent `recordBinding` only rewrites the selected
mapping of that existing descriptor instead of replacing it with a
fresh one. -/
theorem C4_ensure_idempotent (w : World) (c : Nat) (ioProp : IOProp)
    (name : String) (arg0 : Option String) :
    (ensureDescriptor (ensureDescriptor w c) c = ensureDescriptor w c ∧
     (ensureDescriptor (ensureDescriptor w c) c).ownDef c = (ensureDescriptor w c).ownDef c) ∧
    (∀ d, w.ownDef c = some d →
      ensureDescriptor w c = w ∧
      (updateBaseDefFromIOProp ioProp w c name arg0).ownDef c =
        some (setIOProp d ioProp (pmSet (getIOProp d ioProp) name arg0))) := by
  have hidem : ensureDescriptor (ensureDescriptor w c) c = ensureDescriptor w c :=
    ensureDescriptor_of_some (ensureDescriptor w c) c (ensuredDescriptor w c)
      (ensureDescriptor_ownDef w c)
  refine ⟨⟨hidem, by rw [hidem]⟩, ?_⟩
  intro d hd
  refine ⟨ensureDescriptor_of_some w c d hd, ?_⟩
  rw [updateBaseDefFromIOProp_ownDef_self, ensuredDescriptor_of_some w c d hd]

theorem C4_witness :
    ensureDescriptor (ensureDescriptor wC4 0) 0 = ensureDescriptor wC4 0 ∧
    wC4.ownDef 0 = some dC4 ∧
    ensureDescriptor wC4 0 = wC4 ∧
    (updateBaseDefFromIOProp .inputs wC4 0 ("p") (some ("r"))).ownDef 0 =
      some (setIOProp dC4 .inputs (pmSet (getIOProp dC4 .inputs) ("p") (some ("r")))) := by
  obtain ⟨⟨h1, _⟩, h2⟩ := C4_ensure_idempotent wC4 0 .inputs ("p") (some ("r"))
  obtain ⟨h3, h4⟩ := h2 dC4 (by decide)
  exact ⟨h1, by decide, h3, h4⟩

/-- C5: at descriptor creation, when the prototype-chain read for the
class resolves to a superclass descriptor `dS`, the newly created
descriptor agrees with `dS` on every key of all three mappings —
`inputs`, `outputs`, and `declaredInputs` are each fully copied. -/
theorem C5_creation_copies_all (w : World) (c : Nat) (dS : BaseDef)
    (hc : w.ownDef c = none)
    (hRead : ngBaseDefRead w c = some dS) :
    ∃ d, (ensureDescriptor w c).ownDef c = some d ∧
      ∀ k, pmGet d.inputs k = pmGet dS.inputs k ∧
           pmGet d.outputs k = pmGet dS.outputs k ∧
           pmGet d.declaredInputs k = pmGet dS.declaredInputs k := by
  have hd : (ensureDescriptor w c).ownDef c = some (initialDescriptor w c) := by
    rw [ensureDescriptor_ownDef, ensuredDescriptor_of_none w c hc]
  refine ⟨initialDescriptor w c, hd, ?_⟩
  intro k
  simp only [initialDescriptor, hRead]
  exact ⟨pmGet_fillProperties_empty dS.inputs k,
         pmGet_fillProperties_empty dS.outputs k,
         pmGet_fillProperties_empty dS.declaredInputs k⟩

theorem C5_witness :
    wC5.ownDef 1 = none ∧ ngBaseDefRead wC5 1 = some dC5 ∧
    (∃ d, (ensureDescriptor wC5 1).ownDef 1 = some d ∧
      ∀ k, pmGet d.inputs k = pmGet dC5.inputs k ∧
           pmGet d.outputs k = pmGet dC5.outputs k ∧
           pmGet d.declaredInputs k = pmGet dC5.declaredInputs k) :=
  ⟨by decide, by decide, C5_creation_copies_all wC5 1 dC5 (by decide) (by decide)⟩

/-- C6: descriptor creation is governed by the direct own-property test,
with no inheritance walk: an annotation applied to a class that does not
directly own a descriptor installs a freshly built one on that class
(even when an ancestor's descriptor is visible through the prototype
chain — visibility only seeds the fresh copy), while an annotation on a
class that already directly owns one keeps and mutates that existing
descriptor. -/
theorem C6_own_property_check (w : World) (c : Nat) (ioProp : IOProp)
    (name : String) (arg0 : Option String) :
    (w.ownDef c = none →
      ensureDescriptor w c = initBaseDef w c ∧
      (updateBaseDefFromIOProp ioProp w c name arg0).ownDef c =
        some (setIOProp (initialDescriptor w c) ioProp
          (pmSet (getIOProp (initialDescriptor w c) ioProp) name arg0))) ∧
    (∀ d, w.ownDef c = some d →
      ensureDescriptor w c = w ∧
      (updateBaseDefFromIOProp ioProp w c name arg0).ownDef c =
        some (setIOProp d ioProp (pmSet (getIOProp d ioProp) name arg0))) := by
  constructor
  · intro h
    refine ⟨ensureDescriptor_of_none w c h, ?_⟩
    rw [updateBaseDefFromIOProp_ownDef_self, ensuredDescriptor_of_none w c h]
  · intro d hd
    refine ⟨ensureDescriptor_of_some w c d hd, ?_⟩
    rw [updateBaseDefFromIOProp_ownDef_self, ensuredDescriptor_of_some w c d hd]

theorem C6_witness :
    wC6.ownDef 1 = none ∧ (ngBaseDefRead wC6 1).isSome = true ∧
    ensureDescriptor wC6 1 = initBaseDef wC6 1 ∧
    (updateBaseDefFromIOProp .inputs wC6 1 ("p") none).ownDef 1 =
      some (setIOProp (initialDescriptor wC6 1) .inputs
        (pmSet (getIOProp (initialDescriptor wC6 1) .inputs) ("p") none)) ∧
    wC6.ownDef 0 = some dC6 ∧
    ensureDescriptor wC6 0 = wC6 ∧
    (updateBaseDefFromIOProp .outputs wC6 0 ("q") (some ("qq"))).ownDef 0 =
      some (setIOProp dC6 .outputs (pmSet (getIOProp dC6 .outputs) ("q") (some ("qq")))) := by
  obtain ⟨hA, _⟩ := C6_own_property_check wC6 1 .inputs ("p") none
  obtain ⟨h1, h2⟩ := hA (by decide)
  obtain ⟨_, hB⟩ := C6_own_property_check wC6 0 .outputs ("q") (some ("qq"))
  obtain ⟨h3, h4⟩ := hB dC6 (by decide)
  exact ⟨by decide, by decide, h1, h2, by decide, h3, h4⟩

/-- C7: neither `ensureDescriptor` nor `recordBinding` applied to a
subclass touches a different class's slot: the superclass's directly
owned descriptor — and with it its `inputs`, `outputs`, and
`declaredInputs` — is exactly what it was before. -/
theorem C7_superclass_untouched (w : World) (cSub cSup : Nat)
    (ioProp : IOProp) (name : String) (arg0 : Option String)
    (h : cSup ≠ cSub) :
    (ensureDescriptor w cSub).ownDef cSup = w.ownDef cSup ∧
    (updateBaseDefFromIOProp ioProp w cSub name arg0).ownDef cSup = w.ownDef cSup :=
  ⟨ensureDescriptor_ownDef_other w cSub cSup h,
   updateBaseDefFromIOProp_ownDef_other ioProp w cSub name arg0 cSup h⟩

theorem C7_witness :
    (ensureDescriptor wC7 1).ownDef 0 = wC7.ownDef 0 ∧
    (updateBaseDefFromIOProp .inputs wC7 1 ("name") (some ("displayName"))).ownDef 0 =
      wC7.ownDef 0 :=
  C7_superclass_untouched wC7 1 0 .inputs ("name") (some ("displayName")) (by decide)

/-- C8: the three mapping categories are independent: recording an input
binding leaves the descriptor's `outputs` and `declaredInputs` exactly
as they are after bare descriptor creation, and symmetrically recording
an output leaves `inputs` and `declaredInputs` unchanged. -/
theorem C8_category_independence (w : World) (c : Nat) (name : String)
    (arg0 : Option String) :
    ∃ d0 dIn dOut,
      (ensureDescriptor w c).ownDef c = some d0 ∧
      (Input arg0 w c name).ownDef c = some dIn ∧
      dIn.outputs = d0.outputs ∧ dIn.declaredInputs = d0.declaredInputs ∧
      (Output arg0 w c name).ownDef c = some dOut ∧
      dOut.inputs = d0.inputs ∧ dOut.declaredInputs = d0.declaredInputs :=
  ⟨ensuredDescriptor w c, _, _, ensureDescriptor_ownDef w c,
    updateBaseDefFromIOProp_ownDef_self .inputs w c name arg0, rfl, rfl,
    updateBaseDefFromIOProp_ownDef_self .outputs w c name arg0, rfl, rfl⟩

/-- Preservation step for C9: a single `recordBinding` never writes
`declaredInputs` — it only copies it at creation time — so a state in
which every descriptor has an empty `declaredInputs` stays that way. -/
theorem allDeclaredInputsEmpty_update (ioProp : IOProp) (w : World) (c : Nat)
    (name : String) (arg0 : Option String) (hw : allDeclaredInputsEmpty w) :
    allDeclaredInputsEmpty (updateBaseDefFromIOProp ioProp w c name arg0) := by
  have hens : (ensuredDescriptor w c).declaredInputs = [] := by
    cases hc : w.ownDef c with
    | some d =>
      rw [ensuredDescriptor_of_some w c d hc]
      exact hw c d hc
    | none =>
      rw [ensuredDescriptor_of_none w c hc]
      unfold initialDescriptor
      cases hr : ngBaseDefRead w c with
      | none => rfl
      | some inh =>
        obtain ⟨c2, _, hc2⟩ := lookupChain_eq_some w.ownDef (c :: w.chain c) inh hr
        have hinh : inh.declaredInputs = [] := hw c2 inh hc2
        show fillProperties [] inh.declaredInputs = []
        rw [hinh]
        rfl
  intro c2 d2 h2
  rw [updateBaseDefFromIOProp_eq] at h2
  by_cases hc : c2 = c
  · subst hc
    rw [setOwnDef_ownDef_self] at h2
    cases h2
    rw [setIOProp_declaredInputs]
    exact hens
  · rw [setOwnDef_ownDef_other _ c _ c2 hc,
      ensureDescriptor_ownDef_other w c c2 hc] at h2
    exact hw c2 d2 h2

/-- C9: `declaredInputs` is never written by recording input or output
bindings; its only entries are copied from the superclass descriptor at
creation time. Hence if every descriptor in the state has an empty
`declaredInputs` (in particular if no class has a descriptor yet), then
after any sequence of `Input`/`Output` annotations every descriptor —
including each one created along the way — still has an empty
`declaredInputs`. -/
theorem C9_declaredInputs_only_from_creation (w : World) (anns : List Ann)
    (hw : allDeclaredInputsEmpty w) :
    allDeclaredInputsEmpty (applyAnns w anns) := by
  induction anns generalizing w with
  | nil => exact hw
  | cons a rest ih =>
    exact ih _ (allDeclaredInputsEmpty_update a.ioProp w a.target a.name a.arg0 hw)

theorem C9_witness :
    allDeclaredInputsEmpty wC9 ∧ allDeclaredInputsEmpty (applyAnns wC9 annsC9) := by
  have hw : allDeclaredInputsEmpty wC9 := by
    intro c d h
    simp [wC9] at h
  exact ⟨hw, C9_declaredInputs_only_from_creation wC9 annsC9 hw⟩

/-- C10: the `Pipe` decorator's metadata transform defaults the `pure`
flag to `true` when it is not supplied, and preserves both the `name`
and a supplied `pure` value — supplied fields override the default. -/
theorem C10_pipe_pure_default (p : PipeMetadata) :
    (Pipe p).name = p.name ∧
    (p.pure = none → (Pipe p).pure = some true) ∧
    (∀ b, p.pure = some b → (Pipe p).pure = some b) := by
  refine ⟨rfl, ?_, ?_⟩
  · intro h
    simp [Pipe, h]
  · intro b h
    simp [Pipe, h]

theorem C10_witness :
    (Pipe { name := ("upper"), pure := none }).pure = some true ∧
    (Pipe { name := ("stateful"), pure := some false }).pure = some false :=
  ⟨(C10_pipe_pure_default { name := ("upper"), pure := none }).2.1 rfl,
   (C10_pipe_pure_default { name := ("stateful"), pure := some false }).2.2 false rfl⟩

end Ng
